import Mathlib

/-!
Verification of the koharu asset-preparation scripts.

Shallow embedding of:
  - scripts/convert_font_detection.py  (Tensor Archive Converter)
  - scripts/convert_font_labels.py     (Legacy Label Extractor)
  - scripts/cuda.py                    (Native Dependency Fetcher)

Filesystem state at a path is modelled as an `Option` of the file's
content; `none` means no file exists at that path.
-/

deriving instance DecidableEq for Except

namespace Koharu

/- ═══════════ scripts/convert_font_detection.py ═══════════ -/

/-- Tensor element types as tagged in a safetensors header. -/
inductive Dtype
  | F64 | F32 | F16 | BF16 | I64 | I32 | U8
  deriving DecidableEq, Repr

/-- A named, typed, shaped numeric array from the checkpoint's state dict.
`data` is the raw little-endian contiguous element buffer, one `Nat` per byte. -/
structure Tensor where
  dtype : Dtype
  shape : List Nat
  data : List Nat
  deriving DecidableEq, Repr

/-- The weight mapping: tensor name to tensor.  Python dicts preserve
insertion order and have unique keys; we model the mapping as its ordered
association list. -/
abbrev StateDict := List (String × Tensor)

/-- The deserialized checkpoint container (`torch.load` result): a top-level
mapping from field name to payload.  Only the `state_dict` field is read by
the script, so other fields are modelled by their absence from this list. -/
structure Checkpoint where
  fields : List (String × StateDict)
  deriving DecidableEq, Repr

/-- One entry of the produced safetensors archive: header name plus the
tensor's dtype tag, shape and raw byte payload. -/
structure ArchiveEntry where
  name : String
  dtype : Dtype
  shape : List Nat
  payload : List Nat
  deriving DecidableEq, Repr

abbrev Archive := List ArchiveEntry

/-- `safetensors.torch.save_file`: serializes every (name, tensor) pair of
the mapping into an archive entry carrying the same name, dtype tag, shape
and raw bytes.  (The library may lay entries out in a different order inside
the file; the archive is an order-irrelevant mapping, and we keep the source
order.) -/
def save_file (sd : StateDict) : Archive :=
  sd.map (fun p => ⟨p.1, p.2.dtype, p.2.shape, p.2.data⟩)

/-- The converter's fatal format error: `RuntimeError("Unexpected checkpoint
format: missing state_dict")`. -/
inductive ConvertError
  | missingStateDict
  deriving DecidableEq, Repr

/-- `main` of convert_font_detection.py, from the point where the checkpoint
container has been deserialized.  `dest` is the file state at the output
path before the run.  Returns the process outcome and the file state at the
output path after the run: the `state_dict` membership test and lookup,
then `save_file` to the destination. -/
def convertMain (state : Checkpoint) (dest : Option Archive) :
    Except ConvertError Archive × Option Archive :=
  match state.fields.lookup "state_dict" with
  | none => (.error .missingStateDict, dest)
  | some sd => (.ok (save_file sd), some (save_file sd))

/- ═══════════ scripts/convert_font_labels.py ═══════════ -/

/-- A Python attribute value as seen by the extractor: `null` is Python's
`None`; `str` is a string; `obj` is any other (non-JSON-serializable)
object the pickle may have produced, identified by a tag. -/
inductive Val
  | null
  | str (s : String)
  | obj (tag : Nat)
  deriving DecidableEq, Repr

/-- A pickled record viewed through the only two attribute reads the script
performs.  A field is `none` when the attribute is absent on the object
(so `getattr(item, name, None)` falls back to its default), and `some v`
when the attribute is present with value `v` (possibly `Val.null`). -/
structure Record where
  path : Option Val
  language : Option Val
  deriving DecidableEq, Repr

/-- `getattr(item, attr, None)`: the attribute's value if present, else
Python `None`. -/
def getattr (a : Option Val) : Val :=
  a.getD Val.null

/-- The deserialized graph root: either an iterable sequence of records, or
a non-iterable object (iterating it raises `TypeError`), identified by a
tag.  Elements of an iterable root are always viewed through `getattr`,
so arbitrary objects appear as records with absent attributes. -/
inductive Graph
  | seq (records : List Record)
  | nonIterable (tag : Nat)
  deriving DecidableEq, Repr

/-- One output label entry `{"path": ..., "language": ...}`. -/
structure Entry where
  path : Val
  language : Val
  deriving DecidableEq, Repr

/-- The extraction loop:
    for item in data:
        path = getattr(item, "path", None)
        language = getattr(item, "language", None)
        if path is None: continue
        entries.append(\x7b"path": path, "language": language\x7d) -/
def extractEntries : List Record → List Entry
  | [] => []
  | r :: rest =>
    let path := getattr r.path
    let language := getattr r.language
    if path = Val.null then extractEntries rest
    else ⟨path, language⟩ :: extractEntries rest

/-- Minimal JSON string escaping (quote and backslash; the claims use no
control characters). -/
def jsonEscape (s : String) : String :=
  String.mk (s.toList.foldr
    (fun c acc => if c = '"' ∨ c = '\\' then '\\' :: c :: acc else c :: acc) [])

/-- JSON rendering of one value; `none` models `json.dump` raising
`TypeError` on an object it cannot serialize. -/
def jsonOfVal : Val → Option String
  | .null => some "null"
  | .str s => some ("\"" ++ jsonEscape s ++ "\"")
  | .obj _ => none

/-- JSON text of one entry at `indent=2` (keys in insertion order). -/
def entryJson (e : Entry) : Option String := do
  let p ← jsonOfVal e.path
  let l ← jsonOfVal e.language
  pure ("\x7b\n    \"path\": " ++ p ++ ",\n    \"language\": " ++ l ++ "\n  \x7d")

/-- The extractor's fatal conditions: missing input file (`sys.exit`),
non-iterable graph root (`TypeError` from the for-loop), and a
non-serializable value (`TypeError` from `json.dump` mid-write). -/
inductive LabelError
  | inputNotFound
  | unexpectedGraphShape
  | jsonTypeError
  deriving DecidableEq, Repr

/-- Streaming body of `json.dump` over the entry list: text emitted before
any failure, plus the error if some entry was not serializable.  On the
first bad entry the stream stops; text already emitted stays written. -/
def dumpAux : List Entry → Bool → String × Option LabelError
  | [], _ => ("", none)
  | e :: rest, first =>
    match entryJson e with
    | none => ("", some .jsonTypeError)
    | some t =>
      let sep := if first then "\n  " else ",\n  "
      let r := dumpAux rest false
      (sep ++ t ++ r.1, r.2)

/-- `json.dump(entries, f, ensure_ascii=False, indent=2)`: the text that
ends up in the (truncated-on-open) output file, and the error if the dump
failed mid-stream.  On failure the closing bracket is never written, so
the file holds a proper prefix of the full document. -/
def dumpEntries (es : List Entry) : String × Option LabelError :=
  let r := dumpAux es true
  match r.2 with
  | some err => ("[" ++ r.1, some err)
  | none => if es.isEmpty then ("[]", none) else ("[" ++ r.1 ++ "\n]", none)

/-- Filesystem view of one run of convert_font_labels.py: the input path's
content (`none` = file does not exist, `some g` = a pickle deserializing to
graph `g`) and the output path's content before the run. -/
structure LabelsFS where
  input : Option Graph
  output : Option String
  deriving DecidableEq, Repr

/-- Outcome of one run: output-path file state after the run, process exit
(entry count on success), and whether `pickle.load` was ever attempted. -/
structure LabelsResult where
  output : Option String
  exit : Except LabelError Nat
  deserialized : Bool
  deriving DecidableEq, Repr

/-- `main` of convert_font_labels.py:
  1. `if not args.input.exists(): sys.exit(...)` — before any deserialization;
  2. `pickle.load`; iterating a non-iterable root raises `TypeError`
     before the output file is opened;
  3. extraction loop, then `open(args.output, "w")` (truncates) and
     `json.dump` (streams; may fail mid-write). -/
def labelsMain (fs : LabelsFS) : LabelsResult :=
  match fs.input with
  | none => ⟨fs.output, .error .inputNotFound, false⟩
  | some (.nonIterable _) => ⟨fs.output, .error .unexpectedGraphShape, true⟩
  | some (.seq data) =>
    let entries := extractEntries data
    let d := dumpEntries entries
    match d.2 with
    | some e => ⟨some d.1, .error e, true⟩
    | none => ⟨some d.1, .ok entries.length, true⟩

/-- Per-record keep/drop decision of the loop body, as an `Option`:
`none` when the record is dropped (`path is None`), `some` the appended
entry otherwise. -/
def recordEntry (r : Record) : Option Entry :=
  if getattr r.path = Val.null then none
  else some ⟨getattr r.path, getattr r.language⟩

/- ═══════════ scripts/cuda.py ═══════════ -/

/-- The fixed package list of cuda.py. -/
def PACKAGES : List String :=
  ["nvidia-cuda-runtime-cu12", "nvidia-cudnn-cu12",
   "nvidia-cublas-cu12", "nvidia-cufft-cu12"]

/-- Environment of one run: whether `pip install` of each package succeeds,
and the shared-library file paths the site-packages glob would yield after
all installs. -/
structure CudaEnv where
  installOk : String → Bool
  siteLibs : List String

/-- The install loop with `check=True`: each package in order; the first
failure raises `CalledProcessError`, so later packages are never attempted.
Returns the packages actually installed and the failing package, if any. -/
def installLoop (ok : String → Bool) : List String → List String × Option String
  | [] => ([], none)
  | p :: rest =>
    if ok p then
      let r := installLoop ok rest
      (p :: r.1, r.2)
    else ([], some p)

inductive CudaError
  | installFailed (pkg : String)
  deriving DecidableEq, Repr

/-- Outcome of one run of cuda.py: packages installed, library files copied
to the output directory, and the process exit (copied names on success). -/
structure CudaResult where
  installed : List String
  copied : List String
  exit : Except CudaError (List String)

/-- `main` of cuda.py: install every package (aborting on the first
failure), then copy every globbed library whose path contains "nvidia". -/
def cudaMain (env : CudaEnv) : CudaResult :=
  let r := installLoop env.installOk PACKAGES
  match r.2 with
  | some p => ⟨r.1, [], .error (.installFailed p)⟩
  | none =>
    let copied := env.siteLibs.filter
      (fun l => decide ("nvidia".toList <:+: l.toList))
    ⟨r.1, copied, .ok copied⟩

/- ═══════════ helper lemmas ═══════════ -/

/-- The extraction loop is the canonical order-preserving selection by the
per-record keep/drop decision. -/
theorem extractEntries_eq_filterMap (data : List Record) :
    extractEntries data = data.filterMap recordEntry := by
  induction data with
  | nil => rfl
  | cons r rest ih =>
    by_cases h : getattr r.path = Val.null
    · simp [extractEntries, recordEntry, h, ih]
    · simp [extractEntries, recordEntry, h, ih]

/-- The output list is an order-preserving selection from the records'
attribute views. -/
theorem extractEntries_sublist (data : List Record) :
    List.Sublist (extractEntries data)
      (data.map (fun r => ⟨getattr r.path, getattr r.language⟩)) := by
  induction data with
  | nil => simp [extractEntries]
  | cons r rest ih =>
    by_cases h : getattr r.path = Val.null
    · simp only [extractEntries, h, if_pos, List.map_cons]
      exact ih.cons _
    · simp only [extractEntries, h, if_neg, List.map_cons, not_false_iff]
      exact ih.cons₂ _

/-- What the install loop installed: exactly the packages before the first
failure. -/
theorem installLoop_fst (ok : String → Bool) (l : List String) :
    (installLoop ok l).1 = l.takeWhile ok := by
  induction l with
  | nil => rfl
  | cons p rest ih =>
    by_cases h : ok p
    · simp [installLoop, h, List.takeWhile_cons, ih]
    · simp [installLoop, h, List.takeWhile_cons]

/-- The install loop reports no failure iff every package installs. -/
theorem installLoop_none_iff (ok : String → Bool) (l : List String) :
    (installLoop ok l).2 = none ↔ l.all ok = true := by
  induction l with
  | nil => simp [installLoop]
  | cons p rest ih =>
    by_cases h : ok p
    · simp [installLoop, h, ih]
    · simp [installLoop, h]

/-- A reported failure names a package from the list whose install failed. -/
theorem installLoop_some (ok : String → Bool) (l : List String) (p : String)
    (h : (installLoop ok l).2 = some p) : ok p = false ∧ p ∈ l := by
  induction l with
  | nil => simp [installLoop] at h
  | cons q rest ih =>
    by_cases hq : ok q
    · simp only [installLoop, hq, if_pos] at h
      rcases ih h with ⟨h1, h2⟩
      exact ⟨h1, List.mem_cons_of_mem _ h2⟩
    · simp only [installLoop, hq, if_neg, not_false_iff] at h
      cases h
      exact ⟨Bool.eq_false_iff.mpr hq, List.mem_cons_self _ _⟩

/- ═══════════ claim theorems ═══════════ -/

/-- C1: for every checkpoint container whose `state_dict` field holds a
mapping of N named tensors, the converter succeeds and the written archive
has exactly N entries, entry names equal to the source keys, and each
entry's dtype, shape and raw element bytes identical to the source
tensor's. -/
theorem convert_preserves_tensors (state : Checkpoint) (dest : Option Archive)
    (sd : StateDict) (h : state.fields.lookup "state_dict" = some sd) :
    ∃ arch : Archive, convertMain state dest = (.ok arch, some arch) ∧
      arch.length = sd.length ∧
      arch.map ArchiveEntry.name = sd.map Prod.fst ∧
      ∀ i (hi : i < arch.length) (hj : i < sd.length),
        (arch.get ⟨i, hi⟩).name = (sd.get ⟨i, hj⟩).1 ∧
        (arch.get ⟨i, hi⟩).dtype = (sd.get ⟨i, hj⟩).2.dtype ∧
        (arch.get ⟨i, hi⟩).shape = (sd.get ⟨i, hj⟩).2.shape ∧
        (arch.get ⟨i, hi⟩).payload = (sd.get ⟨i, hj⟩).2.data := by
  refine ⟨save_file sd, by simp [convertMain, h], by simp [save_file], ?_, ?_⟩
  · simp [save_file, List.map_map, Function.comp]
  · intro i hi hj
    simp [save_file, List.getElem_map]

/-- Spec §8 example state dict (tiny payloads standing for the element
buffers). -/
def sdEx : StateDict :=
  [("conv1.weight", ⟨.F32, [3, 3, 3, 16], [0, 1, 2, 3]⟩),
   ("conv1.bias", ⟨.F32, [16], [4, 5, 6, 7]⟩)]

def ckptEx : Checkpoint := ⟨[("epoch", []), ("state_dict", sdEx)]⟩

/-- Witness for C1 at a concrete two-tensor checkpoint. -/
theorem convert_preserves_tensors_witness :
    ckptEx.fields.lookup "state_dict" = some sdEx ∧
    ∃ arch : Archive, convertMain ckptEx none = (.ok arch, some arch) ∧
      arch.length = sdEx.length ∧
      arch.map ArchiveEntry.name = sdEx.map Prod.fst ∧
      ∀ i (hi : i < arch.length) (hj : i < sdEx.length),
        (arch.get ⟨i, hi⟩).name = (sdEx.get ⟨i, hj⟩).1 ∧
        (arch.get ⟨i, hi⟩).dtype = (sdEx.get ⟨i, hj⟩).2.dtype ∧
        (arch.get ⟨i, hi⟩).shape = (sdEx.get ⟨i, hj⟩).2.shape ∧
        (arch.get ⟨i, hi⟩).payload = (sdEx.get ⟨i, hj⟩).2.data :=
  ⟨by decide, convert_preserves_tensors ckptEx none sdEx (by decide)⟩

/-- C3: when the deserialized container has no `state_dict` field the
converter fails with the missing-state-dict error, writes nothing, and the
destination file state (including any pre-existing file) is unchanged. -/
theorem convert_missing_state_dict (state : Checkpoint) (dest : Option Archive)
    (h : state.fields.lookup "state_dict" = none) :
    convertMain state dest = (.error .missingStateDict, dest) := by
  simp [convertMain, h]

def oldArchive : Archive := [⟨"w", .F32, [1], [9]⟩]

/-- Witness for C3: a container with only other fields, destination holding
a pre-existing archive that survives untouched. -/
theorem convert_missing_state_dict_witness :
    (Checkpoint.mk [("hyper_parameters", [])]).fields.lookup "state_dict" = none ∧
    convertMain ⟨[("hyper_parameters", [])]⟩ (some oldArchive) =
      (.error .missingStateDict, some oldArchive) :=
  ⟨by decide, convert_missing_state_dict _ _ (by decide)⟩

/-- The 3-record source graph of the spec's end-to-end example: `path`
present "a.ttf" / present null / present "b.ttf", `language` "en" / "ja" /
null. -/
def exampleRecords : List Record :=
  [⟨some (.str "a.ttf"), some (.str "en")⟩,
   ⟨some Val.null, some (.str "ja")⟩,
   ⟨some (.str "b.ttf"), some Val.null⟩]

/-- C2: the extractor drops the record whose `path` is null and keeps the
others with their `language` (null when null/absent): on the spec's
3-record example it yields exactly the 2-entry list, and the full run exits
successfully reporting 2 entries. -/
theorem labels_example_run :
    extractEntries exampleRecords =
      [⟨Val.str "a.ttf", Val.str "en"⟩, ⟨Val.str "b.ttf", Val.null⟩] ∧
    (labelsMain ⟨some (.seq exampleRecords), none⟩).exit = .ok 2 ∧
    recordEntry ⟨some (.str "x.ttf"), none⟩ = some ⟨Val.str "x.ttf", Val.null⟩ ∧
    recordEntry ⟨none, some (.str "ja")⟩ = none := by
  refine ⟨by decide, by decide, by decide, by decide⟩

/-- C5 counterexample: the empty string is not Python `None`, so a record
with `path = ""` is kept and the output contains an entry whose `path` is
the empty string — refuting "every output LabelEntry has a non-empty
`path` string". -/
theorem labels_nonempty_path_cex :
    ¬ (∀ e ∈ extractEntries [(⟨some (Val.str ""), none⟩ : Record)],
        e.path ≠ Val.str "") := by decide

/-- C5 (amended): every output entry's `path` is non-null and equals,
verbatim, the path attribute of some source record (which was present and
non-null, though possibly empty or non-string), `language` likewise taken
verbatim; no null/missing-path record contributes an entry; and the output
has at most as many entries as the source has records. -/
theorem labels_output_invariants (data : List Record) :
    (∀ e ∈ extractEntries data,
      e.path ≠ Val.null ∧
      ∃ r ∈ data, getattr r.path = e.path ∧ getattr r.language = e.language) ∧
    (extractEntries data).length ≤ data.length := by
  rw [extractEntries_eq_filterMap]
  constructor
  · intro e he
    rcases List.mem_filterMap.mp he with ⟨r, hr, hre⟩
    unfold recordEntry at hre
    by_cases h : getattr r.path = Val.null
    · simp [h] at hre
    · rw [if_neg h] at hre
      cases hre
      exact ⟨h, r, hr, rfl, rfl⟩
  · exact List.length_filterMap_le _ _

/-- Witness for the amended C5 at the spec's example graph. -/
theorem labels_output_invariants_witness :
    (⟨Val.str "a.ttf", Val.str "en"⟩ : Entry) ∈ extractEntries exampleRecords ∧
    ((⟨Val.str "a.ttf", Val.str "en"⟩ : Entry).path ≠ Val.null ∧
      ∃ r ∈ exampleRecords,
        getattr r.path = Val.str "a.ttf" ∧ getattr r.language = Val.str "en") ∧
    (extractEntries exampleRecords).length ≤ exampleRecords.length :=
  ⟨by decide,
   (labels_output_invariants exampleRecords).1 _ (by decide),
   (labels_output_invariants exampleRecords).2⟩

/-- C6: a non-iterable graph root fails the run with the
unexpected-graph-shape error (after deserialization) and the output path
is left untouched — no output file is written. -/
theorem labels_non_iterable_root (t : Nat) (o : Option String) :
    labelsMain ⟨some (.nonIterable t), o⟩ =
      ⟨o, .error .unexpectedGraphShape, true⟩ := rfl

/-- C7: a missing input file fails the run with input-not-found before any
deserialization is attempted (`deserialized = false`), and the output path
is left untouched — no output file is produced. -/
theorem labels_input_not_found (o : Option String) :
    labelsMain ⟨none, o⟩ = ⟨o, .error .inputNotFound, false⟩ := rfl

/-- C8: extraction is deterministic — on the same input graph the whole run
result, including the bytes written at the output path, is the same
whatever the destination previously held (so two runs on the same
unchanged input write byte-identical output) — and order-preserving: the
entry list is the canonical in-order selection of the kept records, a
sublist of the records' attribute views in source order. -/
theorem labels_deterministic_order (data : List Record) (o o' : Option String) :
    labelsMain ⟨some (.seq data), o⟩ = labelsMain ⟨some (.seq data), o'⟩ ∧
    extractEntries data = data.filterMap recordEntry ∧
    List.Sublist (extractEntries data)
      (data.map (fun r => ⟨getattr r.path, getattr r.language⟩)) :=
  ⟨rfl, extractEntries_eq_filterMap data, extractEntries_sublist data⟩

/-- C10: the keep/drop test is exactly "the reconstructed path is Python
None": a record is dropped iff `getattr(item, "path", None)` is null, and
both an empty-string path and a non-string object path are kept with their
values appearing verbatim in the output. -/
theorem labels_keep_test_is_not_none :
    (∀ r : Record, recordEntry r = none ↔ getattr r.path = Val.null) ∧
    extractEntries [⟨some (Val.str ""), some (Val.str "ja")⟩,
                    ⟨some (Val.obj 7), none⟩] =
      [⟨Val.str "", Val.str "ja"⟩, ⟨Val.obj 7, Val.null⟩] := by
  constructor
  · intro r
    unfold recordEntry
    by_cases h : getattr r.path = Val.null <;> simp [h]
  · decide

def badGraph : Graph := .seq [⟨some (Val.obj 0), none⟩]

/-- C4 counterexample: a kept record whose `path` is a non-JSON-serializable
object makes `json.dump` raise mid-write, after `open(..., "w")` already
truncated the destination: the failed run leaves a partial (here 1-byte)
file at the output path where none existed before — the write is not
atomic relative to failure. -/
theorem labels_partial_write_cex :
    (labelsMain ⟨some badGraph, none⟩).exit = .error .jsonTypeError ∧
    (labelsMain ⟨some badGraph, none⟩).output = some "[" ∧
    some "[" ≠ (none : Option String) := by decide

/-- C4 (amended): on the failure paths reached before the output file is
opened — missing input, non-iterable graph root, missing state dict — no
output file is written and any pre-existing destination file is unchanged;
but a failure during serialization, after the destination was opened for
writing, leaves a truncated partial file (see the counterexample). -/
theorem pre_open_failures_leave_destination (state : Checkpoint)
    (d : Option Archive) (g : Option Graph) (o : Option String)
    (hs : state.fields.lookup "state_dict" = none)
    (hg : g = none ∨ ∃ t, g = some (.nonIterable t)) :
    (convertMain state d).2 = d ∧ (labelsMain ⟨g, o⟩).output = o := by
  constructor
  · simp [convertMain, hs]
  · rcases hg with h | ⟨t, h⟩ <;> subst h <;> rfl

/-- Witness for the amended C4: empty container, absent input graph,
pre-existing files at both destinations survive untouched. -/
theorem pre_open_failures_leave_destination_witness :
    ((Checkpoint.mk []).fields.lookup "state_dict" = none ∧
      ((none : Option Graph) = none ∨
        ∃ t, (none : Option Graph) = some (.nonIterable t))) ∧
    (convertMain ⟨[]⟩ (some oldArchive)).2 = some oldArchive ∧
    (labelsMain ⟨none, some "old"⟩).output = some "old" :=
  ⟨⟨by decide, Or.inl rfl⟩,
   pre_open_failures_leave_destination ⟨[]⟩ (some oldArchive) none (some "old")
     (by decide) (Or.inl rfl)⟩

/-- C9: if any pip install step fails, the run aborts: it exits non-zero
naming a failing package from the list, no library file is copied, and
only the packages strictly before the first failure were installed. -/
theorem cuda_install_failure_aborts (env : CudaEnv)
    (h : PACKAGES.all env.installOk = false) :
    (∃ p, (cudaMain env).exit = .error (.installFailed p) ∧
      env.installOk p = false ∧ p ∈ PACKAGES) ∧
    (cudaMain env).copied = [] ∧
    (cudaMain env).installed = PACKAGES.takeWhile env.installOk := by
  have h2 : (installLoop env.installOk PACKAGES).2 ≠ none := by
    intro hn
    rw [installLoop_none_iff] at hn
    rw [hn] at h
    simp at h
  rcases hx : (installLoop env.installOk PACKAGES).2 with _ | p
  · exact absurd hx h2
  · rcases installLoop_some _ _ _ hx with ⟨hp1, hp2⟩
    refine ⟨⟨p, ?_, hp1, hp2⟩, ?_, ?_⟩
    · simp [cudaMain, hx]
    · simp [cudaMain, hx]
    · simp [cudaMain, hx, installLoop_fst]

/-- A run environment where the cublas package fails to install. -/
def envFail : CudaEnv :=
  ⟨fun p => !(p == "nvidia-cublas-cu12"), ["site/nvidia/libcublas.so.12"]⟩

/-- Witness for C9 at a concrete environment with one failing package. -/
theorem cuda_install_failure_aborts_witness :
    PACKAGES.all envFail.installOk = false ∧
    ((∃ p, (cudaMain envFail).exit = .error (.installFailed p) ∧
      envFail.installOk p = false ∧ p ∈ PACKAGES) ∧
    (cudaMain envFail).copied = [] ∧
    (cudaMain envFail).installed = PACKAGES.takeWhile envFail.installOk) :=
  ⟨by decide, cuda_install_failure_aborts envFail (by decide)⟩

end Koharu
